import Mathlib

/-!
Formal model of the `leap_utilities` repository (branch-path resolution and
auto-creation, and the energy-use reconciliation engine), as a shallow
embedding in Lean 4.

Conventions of the embedding:
* Python strings are Lean `String`s; the Python operations `str.split`,
  `str.startswith`, `str.join` and `int(str)` are re-implemented structurally
  over `String.data` (`pySplitBS`, `pyStartswith`, `pyJoin`, `pyInt`) so that
  they compute in the kernel; their semantics match CPython on the inputs the
  source uses them on.
* Python floats are modelled as exact rationals `ℚ`; `pandas` `NaN` values are
  `Option ℚ` with `none` for `NaN`.
* A `pandas` `Series` obtained by row masking is modelled with its index:
  `Series := List (Nat × Option ℚ)` (row label, value).  Multiplication of two
  series aligns on the index labels, producing `none` (`NaN`) where a label is
  missing on either side, exactly as `pandas` does; `Series.sum()` skips `NaN`
  and returns 0 for an all-`NaN` or empty series.
* Exceptions are `Except String`; `breakpoint()` calls in the source are
  debugger no-ops and are not modelled.
* The external LEAP application (a COM collaborator, out of scope of the
  repository sources) is modelled from the spec's external-interface section:
  an existence check over a set of existing branch paths, and creation
  operations that materialize one node under a parent and make it visible to
  subsequent existence checks.  A counter records how many creation calls
  were issued.
-/

/-- Python `s.split("\\")` on the character list: split on every backslash,
no collapsing, `"".split` gives `[""]`. -/
def splitCharsOn (sep : Char) : List Char → List (List Char)
  | [] => [[]]
  | c :: cs =>
    let r := splitCharsOn sep cs
    if c = sep then [] :: r
    else
      match r with
      | [] => [[c]]
      | g :: gs => (c :: g) :: gs

/-- Python `bp.split("\\")` (the Python literal `"\\"` is one backslash). -/
def pySplitBS (s : String) : List String :=
  (splitCharsOn '\\' s.data).map (fun cs => ⟨cs⟩)

/-- Python `a.startswith(b)` is character-wise prefix. -/
def pyStartswith (b a : String) : Bool :=
  List.isPrefixOf b.data a.data

/-- Python `sep.join(l)`. -/
def pyJoin (sep : String) : List String → String
  | [] => ""
  | [x] => x
  | x :: xs => x ++ sep ++ pyJoin sep xs

/-- Python `int(s)` on a string of decimal digits. -/
def pyInt (s : String) : Nat :=
  s.data.foldl (fun n c => n * 10 + (c.toNat - '0'.toNat)) 0

/-- `pandas` `unique()`: keep the first occurrence of each element, in order. -/
def pyUniqueAux {α : Type} [BEq α] (seen : List α) : List α → List α
  | [] => []
  | x :: xs => if seen.contains x then pyUniqueAux seen xs else x :: pyUniqueAux (x :: seen) xs

/-- `pandas` `unique()` over a list. -/
def pyUnique {α : Type} [BEq α] (l : List α) : List α := pyUniqueAux [] l

/-- Association-list lookup, Python `dict.get`. -/
def dictGet {α β : Type} [BEq α] (m : List (α × β)) (k : α) : Option β :=
  (m.find? (fun p => p.1 == k)).map (fun p => p.2)

-- ---------------------------------------------------------------------------
-- leap_core.py: branch-type constants (LEAP BranchType enumeration values)
-- ---------------------------------------------------------------------------

def BRANCH_DEMAND_CATEGORY : Nat := 1
def BRANCH_DEMAND_TECHNOLOGY : Nat := 4
def BRANCH_DEMAND_FUEL : Nat := 36
def BRANCH_KEY_ASSUMPTION_BRANCH : Nat := 9
def BRANCH_KEY_ASSUMPTION_CATEGORY : Nat := 10

-- ---------------------------------------------------------------------------
-- leap_core.py: identify_branch_type_from_mapping
-- ---------------------------------------------------------------------------

/-- Embedding of `identify_branch_type_from_mapping(bp, other_branch_paths,
branch_root, branch_type_mapping, default_branch_type)` (leap_core.py).
The override mapping is keyed by branch tuples; `default_branch_type` is the
`(non_leaf, second_to_leaf, leaf)` triple.  Note the source selects candidate
descendants with the string test `b.startswith(bp)` and then compares
backslash-segment counts. -/
def identify_branch_type_from_mapping (bp : String) (other_branch_paths : List String)
    (branch_root : Option String) (branch_type_mapping : List (List String × Nat))
    (default_branch_type : Nat × Nat × Nat) : Nat :=
  let branch_tuple := pySplitBS bp
  let bt0 := dictGet branch_type_mapping branch_tuple
  let bt :=
    match bt0, branch_root with
    | none, some root => dictGet branch_type_mapping (branch_tuple.drop (pySplitBS root).length)
    | _, _ => bt0
  match bt with
  | some b => b
  | none =>
    let matching_branch_paths := other_branch_paths.filter (fun b => pyStartswith bp b)
    let one_more := matching_branch_paths.filter
      (fun b => (pySplitBS b).length - branch_tuple.length == 1)
    let two_more := matching_branch_paths.filter
      (fun b => (pySplitBS b).length - branch_tuple.length == 2)
    if two_more.length > 0 then default_branch_type.1
    else if one_more.length > 0 then default_branch_type.2.1
    else default_branch_type.2.2

/-- Modelled from the spec's words (for comparison with the source's
resolver, which uses a string `startswith` test): `b` extends path `p` by
exactly `k` segments when `b`'s backslash-segment list is `p`'s list followed
by `k` further segments. -/
def spec_extendsBySegments (p b : String) (k : Nat) : Bool :=
  ((pySplitBS b).length == (pySplitBS p).length + k) &&
    ((pySplitBS b).take (pySplitBS p).length == pySplitBS p)

-- ---------------------------------------------------------------------------
-- External LEAP application model (spec section 6: ExistenceCheck / CreateOp)
-- ---------------------------------------------------------------------------

/-- A LEAP branch handle; `path` plays the role of the COM `Branch.ID`. -/
structure LeapBranch where
  path : String
deriving DecidableEq

/-- Modelled from the spec: the live LEAP hierarchy seen through the external
interface.  `existing` is the set of branch paths for which
`Branches.Exists` answers true; `creations` counts issued creation calls.
Creation operations materialize one node under a parent and make it visible
to subsequent existence checks. -/
structure LeapState where
  existing : List String
  creations : Nat
deriving DecidableEq

/-- Embedding of `safe_branch_call(L, branch_path, AUTO_SET_MISSING_BRANCHES=False,
THROW_ERROR_ON_MISSING=False)` (leap_core.py): return a handle when the branch
exists, `None` otherwise.  This is the variant used by the batch materializer
and by `_ensure_path_exists_create_if_not`. -/
def safe_branch_call (st : LeapState) (branch_path : String) : Option LeapBranch :=
  if branch_path ∈ st.existing then some ⟨branch_path⟩ else none

/-- Modelled from the spec: the external creation operations
(`L.AddCategory`, `L.AddTechnology`, `L.AddKeyAssumption`,
`L.AddKeyAssumptionCategory`) all materialize one child node under the parent
and return its handle. -/
def leapAddChild (st : LeapState) (parent_path name : String) : LeapState × LeapBranch :=
  let p := parent_path ++ "\\" ++ name
  ({ existing := st.existing ++ [p], creations := st.creations + 1 }, ⟨p⟩)

def L_AddCategory (st : LeapState) (parent_path name : String) : LeapState × LeapBranch :=
  leapAddChild st parent_path name

def L_AddTechnology (st : LeapState) (parent_path name : String) : LeapState × LeapBranch :=
  leapAddChild st parent_path name

def L_AddKeyAssumption (st : LeapState) (parent_path name : String) : LeapState × LeapBranch :=
  leapAddChild st parent_path name

def L_AddKeyAssumptionCategory (st : LeapState) (parent_path name : String) :
    LeapState × LeapBranch :=
  leapAddChild st parent_path name

-- ---------------------------------------------------------------------------
-- leap_core.py: _create_child_branch
-- ---------------------------------------------------------------------------

/-- The `RuntimeError` message for a demand-fuel branch in `_create_child_branch`:
the branch must be created manually. -/
def fuelCreateMsg (name : String) : String :=
  "Cannot auto-create demand fuel branch " ++ name ++
    ": LEAP API does not expose an AddDemandFuel method. Create the associated " ++
    "technology (with its fuel) in LEAP, or handle this branch manually."

/-- The `RuntimeError` message for a creation attempt without a parent handle. -/
def orphanCreateMsg (name : String) : String :=
  "Cannot create top-level branch " ++ name ++
    " without an existing parent. In practice, roots like Demand must already exist."

/-- Embedding of `_create_child_branch(L, parent_branch, name, branch_type)`
(leap_core.py).  Categories and technologies dispatch to the corresponding
LEAP creation call; demand-fuel branches (type 36) have no creation API and
raise; unknown types raise. -/
def _create_child_branch (st : LeapState) (parent_branch : Option LeapBranch)
    (name : String) (branch_type : Nat) : Except String (LeapState × LeapBranch) :=
  match parent_branch with
  | none => Except.error (orphanCreateMsg name)
  | some parent =>
    if branch_type = BRANCH_DEMAND_CATEGORY then
      Except.ok (L_AddCategory st parent.path name)
    else if branch_type = BRANCH_DEMAND_TECHNOLOGY then
      Except.ok (L_AddTechnology st parent.path name)
    else if branch_type = BRANCH_DEMAND_FUEL then
      Except.error (fuelCreateMsg name)
    else
      Except.error ("Unsupported branch_type for " ++ name ++ ".")

-- ---------------------------------------------------------------------------
-- leap_core.py: _ensure_path_exists_create_if_not
-- ---------------------------------------------------------------------------

/-- The error message raised for a demand-fuel segment inside
`_ensure_path_exists_create_if_not`. -/
def fuelEnsureMsg (current_path : String) : String :=
  "Cannot auto-create demand fuel branch " ++ current_path ++
    ": LEAP API does not expose an AddDemandFuel method. Create the associated " ++
    "technology (with its fuel) in LEAP, or handle this branch manually."

/-- The per-segment walk of `_ensure_path_exists_create_if_not` (leap_core.py):
`done` holds the segments already consumed, `rest` those still to visit,
`parent` the handle of the last resolved prefix.  An existing prefix is
adopted as the new parent; a missing prefix with no parent aborts with `None`
(warn path); otherwise the segment's type is resolved and the matching LEAP
creation call is issued, a demand-fuel type raising and an unsupported type
returning `None`. -/
def ensureLoop (st : LeapState) (done rest : List String) (parent : Option LeapBranch)
    (branch_root : Option String) (other_branch_paths : List String)
    (branch_type_mapping : List (List String × Nat)) (default_branch_type : Nat × Nat × Nat) :
    Except String (LeapState × Option LeapBranch) :=
  match rest with
  | [] => Except.ok (st, parent)
  | part :: rest' =>
    let current_path := pyJoin "\\" (done ++ [part])
    match safe_branch_call st current_path with
    | some br =>
      ensureLoop st (done ++ [part]) rest' (some br) branch_root other_branch_paths
        branch_type_mapping default_branch_type
    | none =>
      match parent with
      | none => Except.ok (st, none)
      | some parentBr =>
        let branch_type := identify_branch_type_from_mapping current_path other_branch_paths
          branch_root branch_type_mapping default_branch_type
        if branch_type = BRANCH_DEMAND_CATEGORY then
          let r := L_AddCategory st parentBr.path part
          ensureLoop r.1 (done ++ [part]) rest' (some r.2) branch_root other_branch_paths
            branch_type_mapping default_branch_type
        else if branch_type = BRANCH_DEMAND_TECHNOLOGY then
          let r := L_AddTechnology st parentBr.path part
          ensureLoop r.1 (done ++ [part]) rest' (some r.2) branch_root other_branch_paths
            branch_type_mapping default_branch_type
        else if branch_type = BRANCH_DEMAND_FUEL then
          Except.error (fuelEnsureMsg current_path)
        else if branch_type = BRANCH_KEY_ASSUMPTION_BRANCH then
          let r := L_AddKeyAssumption st parentBr.path part
          ensureLoop r.1 (done ++ [part]) rest' (some r.2) branch_root other_branch_paths
            branch_type_mapping default_branch_type
        else if branch_type = BRANCH_KEY_ASSUMPTION_CATEGORY then
          let r := L_AddKeyAssumptionCategory st parentBr.path part
          ensureLoop r.1 (done ++ [part]) rest' (some r.2) branch_root other_branch_paths
            branch_type_mapping default_branch_type
        else
          Except.ok (st, none)

/-- The nonempty backslash segments of a path, `[p for p in full_path.split("\\") if p]`. -/
def splitParts (full_path : String) : List String :=
  (pySplitBS full_path).filter (fun s => s != "")

/-- Embedding of `_ensure_path_exists_create_if_not(L, full_path, branch_root,
other_branch_paths, branch_type_mapping, default_branch_type)` (leap_core.py). -/
def _ensure_path_exists_create_if_not (st : LeapState) (full_path : String)
    (branch_root : Option String) (other_branch_paths : List String)
    (branch_type_mapping : List (List String × Nat)) (default_branch_type : Nat × Nat × Nat) :
    Except String (LeapState × Option LeapBranch) :=
  ensureLoop st [] (splitParts full_path) none branch_root other_branch_paths
    branch_type_mapping default_branch_type

-- ---------------------------------------------------------------------------
-- leap_core.py: create_branches_from_export_file
-- ---------------------------------------------------------------------------

/-- Result triple returned by the batch materializer. -/
structure BatchResult where
  created : List String
  skipped : List String
  failed : List String
deriving DecidableEq

/-- The order in which the batch materializer visits paths: `pandas` `unique`
(first occurrence wins) then a stable sort by ascending backslash-segment
count, `sorted(branch_paths, key=lambda x: len(x.split("\\")))`. -/
def batchProcessOrder (branch_paths : List String) : List String :=
  (pyUnique branch_paths).mergeSort
    (fun a b => decide ((pySplitBS a).length ≤ (pySplitBS b).length))

/-- The per-path loop of `create_branches_from_export_file` (leap_core.py):
an existing path is skipped; otherwise the chain is materialized, a `None`
result raising (strict mode) or accumulating in `failed` (lenient mode). -/
def batchLoop (st : LeapState) (todo : List String) (acc : BatchResult)
    (branch_root : Option String) (other_branch_paths : List String)
    (branch_type_mapping : List (List String × Nat)) (default_branch_type : Nat × Nat × Nat)
    (RAISE_ERROR_ON_FAILED_BRANCH_CREATION : Bool) :
    Except String (LeapState × BatchResult) :=
  match todo with
  | [] => Except.ok (st, acc)
  | bp :: rest =>
    match safe_branch_call st bp with
    | some _ =>
      batchLoop st rest { acc with skipped := acc.skipped ++ [bp] } branch_root
        other_branch_paths branch_type_mapping default_branch_type
        RAISE_ERROR_ON_FAILED_BRANCH_CREATION
    | none =>
      match _ensure_path_exists_create_if_not st bp branch_root other_branch_paths
          branch_type_mapping default_branch_type with
      | Except.error e => Except.error e
      | Except.ok (st', none) =>
        if RAISE_ERROR_ON_FAILED_BRANCH_CREATION then
          Except.error ("Failed to create branch at " ++ bp ++ ".")
        else
          batchLoop st' rest { acc with failed := acc.failed ++ [bp] } branch_root
            other_branch_paths branch_type_mapping default_branch_type
            RAISE_ERROR_ON_FAILED_BRANCH_CREATION
      | Except.ok (st', some _) =>
        batchLoop st' rest { acc with created := acc.created ++ [bp] } branch_root
          other_branch_paths branch_type_mapping default_branch_type
          RAISE_ERROR_ON_FAILED_BRANCH_CREATION

/-- Embedding of `create_branches_from_export_file` (leap_core.py) from the
point where the branch-path list has been extracted from the spreadsheet
(spreadsheet reading and scenario/region filtering are out of the core's
scope).  Paths are deduplicated preserving first occurrence, sorted by
ascending segment count, and processed with the sorted list as the
`other_branch_paths` context (`branch_paths_copy` in the source). -/
def create_branches_from_export_file (st : LeapState) (branch_paths : List String)
    (branch_root : Option String) (branch_type_mapping : List (List String × Nat))
    (default_branch_type : Nat × Nat × Nat)
    (RAISE_ERROR_ON_FAILED_BRANCH_CREATION : Bool) :
    Except String (LeapState × BatchResult) :=
  let ordered := batchProcessOrder branch_paths
  batchLoop st ordered ⟨[], [], []⟩ branch_root ordered branch_type_mapping
    default_branch_type RAISE_ERROR_ON_FAILED_BRANCH_CREATION

/-- A path string is canonical when it is the backslash join of its own
nonempty segments (no leading, trailing, or doubled backslashes). -/
def pathIsCanonical (bp : String) : Prop :=
  pyJoin "\\" (splitParts bp) = bp

-- ---------------------------------------------------------------------------
-- energy_use_reconciliation.py: data model
-- ---------------------------------------------------------------------------

/-- One row of the LEAP export table: Branch Path, Variable, and the year
columns (`none` is a `NaN`/missing cell). -/
structure DataRow where
  branchPath : String
  var : String
  cells : List (String × Option ℚ)
deriving DecidableEq

/-- The export table: the column labels of its year columns and its rows. -/
structure DataFrame where
  columns : List String
  rows : List DataRow
deriving DecidableEq

/-- Value of a row at a year column (`none` when absent or `NaN`). -/
def getCell (r : DataRow) (col : String) : Option ℚ :=
  match r.cells.find? (fun c => c.1 == col) with
  | some c => c.2
  | none => none

/-- A masked `pandas` series: (row index label, value) pairs. -/
abbrev Series := List (Nat × Option ℚ)

/-- Look up a series value by index label. -/
def lookupIdx (s : Series) (i : Nat) : Option (Option ℚ) :=
  (s.find? (fun e => e.1 == i)).map (fun e => e.2)

/-- `pandas` series multiplication: align on the index labels (union), the
product is `NaN` wherever a label is missing on either side or either value
is `NaN`. -/
def seriesMul (a b : Series) : Series :=
  ((a.map Prod.fst ++ b.map Prod.fst).eraseDups).map (fun i =>
    (i, match lookupIdx a i, lookupIdx b i with
        | some (some x), some (some y) => some (x * y)
        | _, _ => none))

/-- `pandas` `Series.sum()`: skip `NaN`, 0 on empty/all-`NaN`. -/
def seriesSum (s : Series) : ℚ :=
  (s.filterMap (fun e => e.2)).sum

/-- A branch rule dictionary (`build_branch_rules_from_mapping` produces these;
`root` and `input_variables_override` go through `dict.get`, hence `Option`). -/
structure BranchRule where
  branch_tuple : List String
  calculation_strategy : String
  root : Option String
  input_variables_override : Option (List String)

/-- Strategy-name to input-variable-list mapping. -/
abbrev StratMap := List (String × List String)

/-- `DEFAULT_STRATEGIES` (energy_use_reconciliation.py). -/
def DEFAULT_STRATEGIES : StratMap :=
  [("Intensity", ["Activity Level", "Final Energy Intensity"]),
   ("Stock", ["Stock", "Mileage", "Fuel Economy"])]

/-- `{**DEFAULT_STRATEGIES, **(strategies or {})}`: the caller's entries
override the defaults. -/
def mergedStrategies (strategies : Option StratMap) : StratMap :=
  (strategies.getD []) ++ DEFAULT_STRATEGIES

/-- `build_branch_path(branch_tuple, root)` (energy_use_reconciliation.py). -/
def build_branch_path (branch_tuple : List String) (root : String) : String :=
  pyJoin "\\" ((root :: branch_tuple).filter (fun s => s != ""))

/-- The branch path of a rule, `build_branch_path(rule["branch_tuple"],
root=rule.get("root", "Demand"))`. -/
def rulePath (rule : BranchRule) : String :=
  build_branch_path rule.branch_tuple (rule.root.getD "Demand")

/-- `rule.get("input_variables_override") or strategies[rule["calculation_strategy"]]`:
a `None` or empty override falls back to the strategy table, a missing
strategy name raising `KeyError`. -/
def getInputVars (rule : BranchRule) (strategies : StratMap) : Except String (List String) :=
  match rule.input_variables_override with
  | some (v :: vs) => Except.ok (v :: vs)
  | _ =>
    match dictGet strategies rule.calculation_strategy with
    | some vs => Except.ok vs
    | none => Except.error ("KeyError: " ++ rule.calculation_strategy)

/-- Signatures of the caller-overridable functions of the engine. -/
abbrev ProviderFn := DataFrame → String → String → List String → Except String (List Series)

abbrev CombineFn := List Series → Series

abbrev EnergyFn := DataFrame → String → BranchRule → StratMap → Option CombineFn →
  Except String ℚ

abbrev AdjustFn := DataFrame → String → BranchRule → ℚ → StratMap →
  Option (List String) → Except String DataFrame

-- ---------------------------------------------------------------------------
-- energy_use_reconciliation.py: energy calculation
-- ---------------------------------------------------------------------------

/-- Embedding of `_default_input_series_provider(export_df, base_year,
branch_path, input_variables)`: one masked series per input variable at the
base-year column; a missing base-year column or an empty mask raises. -/
def _default_input_series_provider (export_df : DataFrame) (base_year : String)
    (branch_path : String) (input_variables : List String) : Except String (List Series) :=
  if export_df.columns.contains base_year then
    input_variables.mapM (fun v =>
      let series : Series :=
        (export_df.rows.enum.filter
          (fun p => p.2.branchPath == branch_path && p.2.var == v)).map
          (fun p => (p.1, getCell p.2 base_year))
      if series.isEmpty then
        Except.error ("No values found for variable " ++ v ++ " on branch " ++ branch_path)
      else Except.ok series)
  else Except.error ("Base year column " ++ base_year ++ " not found in export data.")

/-- Embedding of `calculate_branch_energy(export_df, base_year, rule,
strategies, combination_fn, energy_fn, input_series_provider)`: a supplied
`energy_fn` fully replaces the calculation; otherwise the input series are
fetched and combined (by default, elementwise multiplication with `pandas`
index alignment) and summed. -/
def calculate_branch_energy (export_df : DataFrame) (base_year : String) (rule : BranchRule)
    (strategies : StratMap) (combination_fn : Option CombineFn)
    (energy_fn : Option EnergyFn) (input_series_provider : Option ProviderFn) :
    Except String ℚ :=
  match energy_fn with
  | some f => f export_df base_year rule strategies combination_fn
  | none => do
    let input_vars ← getInputVars rule strategies
    let branch_path := rulePath rule
    let series_list ← (input_series_provider.getD _default_input_series_provider)
      export_df base_year branch_path input_vars
    match series_list with
    | [] => Except.ok 0
    | s :: rest =>
      let combined :=
        match combination_fn with
        | some g => g (s :: rest)
        | none => rest.foldl seriesMul s
      Except.ok (seriesSum combined)

-- ---------------------------------------------------------------------------
-- energy_use_reconciliation.py: reconciliation logic
-- ---------------------------------------------------------------------------

/-- Embedding of `_compute_scale_factor(leap_total, esto_total)`. -/
def _compute_scale_factor (leap_total esto_total : ℚ) : ℚ :=
  if leap_total = 0 then 1 else esto_total / leap_total

/-- A column label is a year column when `len(str(col)) == 4 and
str(col).isdigit()`. -/
def isFourDigitYear (s : String) : Bool :=
  s.length == 4 && s.data.all Char.isDigit

/-- Embedding of `get_adjustment_year_columns(export_df, base_year,
include_future_years, apply_adjustments_to_past_years)`. -/
def get_adjustment_year_columns (export_df : DataFrame) (base_year : String)
    (include_future_years : Bool) (apply_adjustments_to_past_years : Bool) : List String :=
  if !include_future_years then [base_year]
  else
    let year_columns := export_df.columns.filter isFourDigitYear
    (year_columns.mergeSort (fun a b => decide (pyInt a ≤ pyInt b))).filter
      (fun col => apply_adjustments_to_past_years || !(pyInt col < pyInt base_year))

/-- Multiply, at one year column, the cells of the rows matched by one
(branch path, variable) mask, `export_df.loc[mask, year_col] *= scale`. -/
def mapMatchedCells (df : DataFrame) (branch_path v year_col : String) (scale : ℚ) :
    DataFrame :=
  { df with rows := df.rows.map (fun r =>
      if r.branchPath == branch_path && r.var == v then
        { r with cells := r.cells.map (fun c =>
            if c.1 == year_col then (c.1, c.2.map (fun x => x * scale)) else c) }
      else r) }

/-- Embedding of `_apply_proportional_adjustment(export_df, base_year, rule,
scale_factor, strategies, year_columns)`: for each input variable of the
rule with a nonempty mask, multiply the matched rows at every selected year
column (a falsy `year_columns` defaults to the base year) by the scale
factor. -/
def _apply_proportional_adjustment (export_df : DataFrame) (base_year : String)
    (rule : BranchRule) (scale_factor : ℚ) (strategies : StratMap)
    (year_columns : Option (List String)) : Except String DataFrame :=
  let years_to_adjust :=
    match year_columns with
    | some (y :: ys) => y :: ys
    | _ => [base_year]
  do
    let input_vars ← getInputVars rule strategies
    let branch_path := rulePath rule
    Except.ok (input_vars.foldl (fun acc v =>
      if acc.rows.any (fun r => r.branchPath == branch_path && r.var == v) then
        years_to_adjust.foldl (fun acc2 yc =>
          if acc2.columns.contains yc then mapMatchedCells acc2 branch_path v yc scale_factor
          else acc2) acc
      else acc) export_df)

/-- One summary row of the reconciliation report. -/
structure SummaryRow where
  estoKey : String
  leapEnergyUse : ℚ
  estoEnergyUse : ℚ
  scaleFactor : ℚ
  adjustedBranches : String
deriving DecidableEq

/-- `float(esto_energy_totals.get(esto_key, 0.0))`. -/
def estoTotalFor (esto_energy_totals : List (List String × ℚ)) (esto_key : List String) : ℚ :=
  (dictGet esto_energy_totals esto_key).getD 0

/-- The modeled total of one reconciliation key: the sum over its rules of
`calculate_branch_energy`, a per-rule exception degrading that rule's
contribution to 0 (the `except: energy = 0.0` handler in
`reconcile_energy_use`). -/
def keyLeapTotal (working : DataFrame) (base_year : String) (rules : List BranchRule)
    (strategies : StratMap) (combination_fn : Option CombineFn)
    (energy_fn : Option EnergyFn) (input_series_provider : Option ProviderFn) : ℚ :=
  rules.foldl (fun acc rule =>
    acc + (match calculate_branch_energy working base_year rule strategies combination_fn
              energy_fn input_series_provider with
           | Except.ok e => e
           | Except.error _ => 0)) 0

/-- The body of `reconcile_energy_use`'s per-key loop: compute the modeled
and reference totals and the scale factor; when the mismatch exceeds the
tolerance and the factor is not 1, run the adjustment function over every
rule (a per-rule exception skipping that rule); produce the summary row. -/
def processKey (working : DataFrame) (base_year : String) (esto_key : List String)
    (rules : List BranchRule) (strategies : StratMap)
    (esto_energy_totals : List (List String × ℚ)) (tolerance : ℚ)
    (adjustment_fn : Option AdjustFn) (combination_fn : Option CombineFn)
    (energy_fn : Option EnergyFn) (input_series_provider : Option ProviderFn)
    (adjustment_year_columns : List String) : DataFrame × SummaryRow :=
  let leap_total := keyLeapTotal working base_year rules strategies combination_fn
    energy_fn input_series_provider
  let esto_total := estoTotalFor esto_energy_totals esto_key
  let scale_factor := _compute_scale_factor leap_total esto_total
  let adjust := adjustment_fn.getD _apply_proportional_adjustment
  let adjusted :=
    if |leap_total - esto_total| > tolerance ∧ scale_factor ≠ 1 then
      rules.foldl (fun (acc : DataFrame × List String) rule =>
        match adjust acc.1 base_year rule scale_factor strategies
            (some adjustment_year_columns) with
        | Except.ok df2 => (df2, acc.2 ++ [rulePath rule])
        | Except.error _ => acc) (working, [])
    else (working, [])
  (adjusted.1,
   { estoKey := pyJoin " | " esto_key,
     leapEnergyUse := leap_total,
     estoEnergyUse := esto_total,
     scaleFactor := scale_factor,
     adjustedBranches := pyJoin ", " adjusted.2 })

/-- A two-object heap modelling the Python object store relevant to
`reconcile_energy_use`: references are indices, `working_df = export_df.copy()`
is an allocation, in-place mutation is `List.set` at the working reference. -/
abbrev Heap := List DataFrame

/-- Embedding of `reconcile_energy_use(export_df, base_year,
branch_mapping_rules, esto_energy_totals, strategies, tolerance,
adjustment_fn, combination_fn, energy_fn, input_series_provider,
apply_adjustments_to_future_years, apply_adjustments_to_past_years)`
(energy_use_reconciliation.py).  The caller's frame is modelled explicitly:
`rExport` is the reference to the caller's dataframe, the defensive copy is
allocated at a fresh reference, and every per-key mutation is a write to the
working reference only.  Returns the final heap, the working reference (the
returned adjusted dataset) and the summary rows. -/
def reconcile_energy_use (h : Heap) (rExport : Nat) (base_year : String)
    (branch_mapping_rules : List (List String × List BranchRule))
    (esto_energy_totals : List (List String × ℚ))
    (strategies : Option StratMap) (tolerance : ℚ)
    (adjustment_fn : Option AdjustFn) (combination_fn : Option CombineFn)
    (energy_fn : Option EnergyFn) (input_series_provider : Option ProviderFn)
    (apply_adjustments_to_future_years apply_adjustments_to_past_years : Bool) :
    Except String (Heap × Nat × List SummaryRow) :=
  match h[rExport]? with
  | none => Except.error "invalid dataframe reference"
  | some export_df =>
    let h1 := h ++ [export_df]
    let rWork := h.length
    if energy_fn.isSome && adjustment_fn.isNone then
      Except.error ("Provide a custom adjustment_fn when using a custom energy_fn " ++
        "so scale factors are applied correctly.")
    else
      let merged := mergedStrategies strategies
      let adjustment_year_columns := get_adjustment_year_columns export_df base_year
        apply_adjustments_to_future_years apply_adjustments_to_past_years
      let res := branch_mapping_rules.foldl
        (fun (acc : Heap × List SummaryRow) kr =>
          match acc.1[rWork]? with
          | none => acc
          | some wdf =>
            let pr := processKey wdf base_year kr.1 kr.2 merged esto_energy_totals
              tolerance adjustment_fn combination_fn energy_fn input_series_provider
              adjustment_year_columns
            (acc.1.set rWork pr.1, acc.2 ++ [pr.2])) (h1, [])
      Except.ok (res.1, rWork, res.2)

-- ---------------------------------------------------------------------------
-- energy_use_reconciliation.py: adjustment reporting (change auditor)
-- ---------------------------------------------------------------------------

/-- One row of the long-form change table: `Abs Change` is the signed
difference (the table is sorted by its magnitude), `Pct Change` is `NaN`
(`none`) when the original value is exactly zero. -/
structure ChangeRow where
  branchPath : String
  var : String
  year : String
  original : ℚ
  adjusted : ℚ
  absChange : ℚ
  pctChange : Option ℚ
deriving DecidableEq

/-- The frame built for a single year column inside
`_build_change_table_for_years`: skipped when the column is absent from
either table; otherwise the rows (aligned by index) where both values are
present and the difference exceeds `tol` in magnitude. -/
def changeRowsForYear (original_df adjusted_df : DataFrame) (tol : ℚ) (year_col : String) :
    List ChangeRow :=
  if original_df.columns.contains year_col && adjusted_df.columns.contains year_col then
    (original_df.rows.zip adjusted_df.rows).filterMap (fun pr =>
      match getCell pr.1 year_col, getCell pr.2 year_col with
      | some o, some a =>
        if |a - o| > tol then
          some { branchPath := pr.1.branchPath, var := pr.1.var, year := year_col,
                 original := o, adjusted := a, absChange := a - o,
                 pctChange := if o = 0 then none else some ((a - o) / o) }
        else none
      | _, _ => none)
  else []

/-- Embedding of `_build_change_table_for_years(original_df, adjusted_df,
years, tol)`: concatenate the per-year frames and sort by descending
absolute change. -/
def _build_change_table_for_years (original_df adjusted_df : DataFrame)
    (years : List String) (tol : ℚ) : List ChangeRow :=
  if years.isEmpty then []
  else
    (years.flatMap (changeRowsForYear original_df adjusted_df tol)).mergeSort
      (fun r1 r2 => decide (|r2.absChange| ≤ |r1.absChange|))

-- ---------------------------------------------------------------------------
-- Auxiliary notions and concrete fixtures used by the verification
-- ---------------------------------------------------------------------------

/-- The LEAP hierarchy only grows: every existing branch stays visible. -/
def stateLe (st st' : LeapState) : Prop :=
  ∀ x ∈ st.existing, x ∈ st'.existing

/-- A caller-style strictly multiplicative combination function: positional
product of the input series (as a `pandas` user would write
`ls[0].reset_index(drop=True) * ls[1].reset_index(drop=True)`). -/
def posMulCombine : CombineFn := fun ls =>
  match ls with
  | [] => []
  | s :: rest =>
    rest.foldl (fun a b =>
      (a.zip b).map (fun p =>
        (p.1.1, match p.1.2, p.2.2 with
                | some x, some y => some (x * y)
                | _, _ => none))) s

/-- Fixture: a two-input-variable export table (Intensity strategy) with
activity 5 and intensity 10 at the 2022 base year, so the branch energy is
50 under a positional multiplicative combination. -/
def df3 : DataFrame :=
  ⟨["2022"],
   [⟨"Demand\\Bus", "Activity Level", [("2022", some 5)]⟩,
    ⟨"Demand\\Bus", "Final Energy Intensity", [("2022", some 10)]⟩]⟩

/-- Fixture: `df3` after both input rows were multiplied by the 3/2 scale
factor. -/
def df3adj : DataFrame :=
  ⟨["2022"],
   [⟨"Demand\\Bus", "Activity Level", [("2022", some (15/2 : ℚ))]⟩,
    ⟨"Demand\\Bus", "Final Energy Intensity", [("2022", some 15)]⟩]⟩

/-- Fixture: the Intensity rule for the `Demand\Bus` branch. -/
def rule3 : BranchRule := ⟨["Bus"], "Intensity", none, none⟩

/-- Fixture: an ESTO key. -/
def eKey3 : List String := ["15_02_road", "07_petroleum_products"]

/-- Fixture: a single-input-variable export table with value 50 at the 2022
base year. -/
def dfSingle : DataFrame :=
  ⟨["2022"], [⟨"Demand\\Bus", "Energy", [("2022", some 50)]⟩]⟩

/-- Fixture: `dfSingle` scaled by 3/2. -/
def dfSingleAdj : DataFrame :=
  ⟨["2022"], [⟨"Demand\\Bus", "Energy", [("2022", some 75)]⟩]⟩

/-- Fixture: a rule whose override names the single `Energy` input variable. -/
def ruleSingle : BranchRule := ⟨["Bus"], "Intensity", none, some ["Energy"]⟩

/-- Fixture: a one-row export table whose single value is 0. -/
def dfZero : DataFrame :=
  ⟨["2022"], [⟨"Demand\\Bus", "Energy", [("2022", some 0)]⟩]⟩

/-- Fixture: original table for the change-audit instance. -/
def cOrig : DataFrame :=
  ⟨["2022"],
   [⟨"Demand\\X", "Activity Level", [("2022", some 50)]⟩,
    ⟨"Demand\\Y", "Stock", [("2022", some 7)]⟩]⟩

/-- Fixture: adjusted table where exactly one row differs by +10. -/
def cAdj : DataFrame :=
  ⟨["2022"],
   [⟨"Demand\\X", "Activity Level", [("2022", some 60)]⟩,
    ⟨"Demand\\Y", "Stock", [("2022", some 7)]⟩]⟩

-- ---------------------------------------------------------------------------
-- Theorems
-- ---------------------------------------------------------------------------

/-- C1 (amended): the resolver first honours the override mapping (full
tuple, then root-stripped tuple); otherwise, with S1 (resp. S2) the known
paths b such that the path's STRING is a prefix of b (Python `startswith`)
and b has exactly one (resp. two) more backslash-separated segments, the
result is default[0] when S2 is non-empty, else default[1] when S1 is
non-empty, else the leaf kind default[2]; the S2 check precedes the S1
check.  (The source's candidate test is the string prefix, not extension by
whole segments — see the counterexample.) -/
theorem identify_branch_type_resolution (bp : String) (others : List String)
    (root : Option String) (mapping : List (List String × Nat)) (d : Nat × Nat × Nat) :
    (∀ b, dictGet mapping (pySplitBS bp) = some b →
      identify_branch_type_from_mapping bp others root mapping d = b) ∧
    (∀ rt b, dictGet mapping (pySplitBS bp) = none → root = some rt →
      dictGet mapping ((pySplitBS bp).drop (pySplitBS rt).length) = some b →
      identify_branch_type_from_mapping bp others root mapping d = b) ∧
    (dictGet mapping (pySplitBS bp) = none →
      (∀ rt, root = some rt →
        dictGet mapping ((pySplitBS bp).drop (pySplitBS rt).length) = none) →
      ((∃ x ∈ others, pyStartswith bp x = true ∧
          (pySplitBS x).length - (pySplitBS bp).length = 2) →
        identify_branch_type_from_mapping bp others root mapping d = d.1) ∧
      (¬ (∃ x ∈ others, pyStartswith bp x = true ∧
            (pySplitBS x).length - (pySplitBS bp).length = 2) →
        (∃ x ∈ others, pyStartswith bp x = true ∧
          (pySplitBS x).length - (pySplitBS bp).length = 1) →
        identify_branch_type_from_mapping bp others root mapping d = d.2.1) ∧
      (¬ (∃ x ∈ others, pyStartswith bp x = true ∧
            (pySplitBS x).length - (pySplitBS bp).length = 2) →
        ¬ (∃ x ∈ others, pyStartswith bp x = true ∧
            (pySplitBS x).length - (pySplitBS bp).length = 1) →
        identify_branch_type_from_mapping bp others root mapping d = d.2.2)) := by
  have hmem2 : ∀ x, x ∈ (others.filter (fun b => pyStartswith bp b)).filter
      (fun b => (pySplitBS b).length - (pySplitBS bp).length == 2) ↔
      (x ∈ others ∧ pyStartswith bp x = true ∧
        (pySplitBS x).length - (pySplitBS bp).length = 2) := by
    intro x
    simp only [List.mem_filter, beq_iff_eq]
    tauto
  have hmem1 : ∀ x, x ∈ (others.filter (fun b => pyStartswith bp b)).filter
      (fun b => (pySplitBS b).length - (pySplitBS bp).length == 1) ↔
      (x ∈ others ∧ pyStartswith bp x = true ∧
        (pySplitBS x).length - (pySplitBS bp).length = 1) := by
    intro x
    simp only [List.mem_filter, beq_iff_eq]
    tauto
  refine ⟨?_, ?_, ?_⟩
  · intro b hb
    unfold identify_branch_type_from_mapping
    cases root <;> simp [hb]
  · intro rt b h0 hrt hb
    subst hrt
    unfold identify_branch_type_from_mapping
    simp [h0, hb]
  · intro h0 hstrip
    have hbt : identify_branch_type_from_mapping bp others root mapping d =
        (if 0 < ((others.filter (fun b => pyStartswith bp b)).filter
            (fun b => (pySplitBS b).length - (pySplitBS bp).length == 2)).length then d.1
         else if 0 < ((others.filter (fun b => pyStartswith bp b)).filter
            (fun b => (pySplitBS b).length - (pySplitBS bp).length == 1)).length then d.2.1
         else d.2.2) := by
      cases hroot : root with
      | none =>
        simp only [identify_branch_type_from_mapping, h0]
      | some rt =>
        simp only [identify_branch_type_from_mapping, h0, hstrip rt hroot]
    have hpos : ∀ (l : List String), (∃ x, x ∈ l) ↔ 0 < l.length := by
      intro l
      rw [List.length_pos]
      constructor
      · rintro ⟨x, hx⟩ hnil
        simp [hnil] at hx
      · intro hne
        cases l with
        | nil => exact absurd rfl hne
        | cons a t => exact ⟨a, List.mem_cons_self a t⟩
    have hlen2 : (∃ x ∈ others, pyStartswith bp x = true ∧
        (pySplitBS x).length - (pySplitBS bp).length = 2) ↔
        ∃ x, x ∈ (others.filter (fun b => pyStartswith bp b)).filter
          (fun b => (pySplitBS b).length - (pySplitBS bp).length == 2) := by
    

      constructor
      · rintro ⟨x, hx1, hx2, hx3⟩
        exact ⟨x, (hmem2 x).mpr ⟨hx1, hx2, hx3⟩⟩
      · rintro ⟨x, hx⟩
        obtain ⟨a1, a2, a3⟩ := (hmem2 x).mp hx
        exact ⟨x, a1, a2, a3⟩
    have hlen1 : (∃ x ∈ others, pyStartswith bp x = true ∧
        (pySplitBS x).length - (pySplitBS bp).length = 1) ↔
        ∃ x, x ∈ (others.filter (fun b => pyStartswith bp b)).filter
          (fun b => (pySplitBS b).length - (pySplitBS bp).length == 1) := by
      constructor
      · rintro ⟨x, hx1, hx2, hx3⟩
        exact ⟨x, (hmem1 x).mpr ⟨hx1, hx2, hx3⟩⟩
      · rintro ⟨x, hx⟩
        obtain ⟨a1, a2, a3⟩ := (hmem1 x).mp hx
        exact ⟨x, a1, a2, a3⟩
    refine ⟨?_, ?_, ?_⟩
    · intro h2
      rw [hbt, if_pos ((hpos _).mp (hlen2.mp h2))]
    · intro h2 h1
      rw [hbt, if_neg, if_pos ((hpos _).mp (hlen1.mp h1))]
      intro hp
      exact h2 (hlen2.mpr ((hpos _).mpr hp))
    · intro h2 h1
      rw [hbt, if_neg, if_neg]
      · intro hp
        exact h1 (hlen1.mpr ((hpos _).mpr hp))
      · intro hp
        exact h2 (hlen2.mpr ((hpos _).mpr hp))

/-- C1 witness: a path with a genuine two-level descendant resolves to
default[0]; concrete application of the amended resolution theorem. -/
theorem identify_branch_type_resolution_witness :
    identify_branch_type_from_mapping "Demand" ["Demand\\A\\B"] none [] (1, 2, 3) = 1 :=
  ((identify_branch_type_resolution "Demand" ["Demand\\A\\B"] none [] (1, 2, 3)).2.2
    rfl (fun rt h => by cases h)).1 ⟨"Demand\\A\\B", by decide⟩

/-- C1 counterexample: with known path `AB\C` and candidate path `A`, the
source classifies `A` as having a one-more-segment descendant (string
`startswith` match) and returns default[1], while `AB\C` does not extend `A`
by one or two whole segments, so the claim (S1 and S2 as whole-segment
extensions, empty here) demands the leaf kind default[2]. -/
theorem identify_branch_type_startswith_counterexample :
    pyStartswith "A" "AB\\C" = true ∧
    spec_extendsBySegments "A" "AB\\C" 1 = false ∧
    spec_extendsBySegments "A" "AB\\C" 2 = false ∧
    identify_branch_type_from_mapping "A" ["AB\\C"] none [] (1, 2, 3) = 2 ∧
    (2 : Nat) ≠ 3 := by decide

/-- C2: the scale factor equals reference/modeled when the modeled total is
nonzero and exactly 1 when it is zero; a key absent from the reference-totals
mapping contributes a reference total of 0; and the engine's summary row
reports exactly this scale factor for the key's modeled and reference
totals. -/
theorem scale_factor_spec :
    (∀ leap esto : ℚ, leap = 0 → _compute_scale_factor leap esto = 1) ∧
    (∀ leap esto : ℚ, leap ≠ 0 → _compute_scale_factor leap esto = esto / leap) ∧
    (∀ (totals : List (List String × ℚ)) (k : List String),
      (∀ p ∈ totals, p.1 ≠ k) → estoTotalFor totals k = 0) ∧
    (∀ working base_year esto_key rules strategies totals tol afn cfn efn pfn ycols,
      (processKey working base_year esto_key rules strategies totals tol afn cfn efn
          pfn ycols).2.scaleFactor
        = _compute_scale_factor
            (keyLeapTotal working base_year rules strategies cfn efn pfn)
            (estoTotalFor totals esto_key)) := by
  refine ⟨?_, ?_, ?_, ?_⟩
  · intro leap esto h
    simp [_compute_scale_factor, h]
  · intro leap esto h
    simp [_compute_scale_factor, h]
  · intro totals k h
    have hfind : totals.find? (fun p => p.1 == k) = none := by
      rw [List.find?_eq_none]
      intro p hp
      simpa using h p hp
    simp [estoTotalFor, dictGet, hfind]
  · intro working base_year esto_key rules strategies totals tol afn cfn efn pfn ycols
    rfl

/-- C2 witness: concrete applications of the scale-factor characterization. -/
theorem scale_factor_spec_witness :
    _compute_scale_factor 0 75 = 1 ∧
    _compute_scale_factor 50 75 = 75 / 50 ∧
    estoTotalFor [(["15_02_road"], 5)] ["absent_key"] = 0 :=
  ⟨scale_factor_spec.1 0 75 rfl,
   scale_factor_spec.2.1 50 75 (by norm_num),
   scale_factor_spec.2.2.1 [(["15_02_road"], 5)] ["absent_key"] (by decide)⟩

/-- C4: with future-year extension disabled the adjustment-year selection is
exactly `[base_year]` whatever the past-years flag is (so the past flag has
an effect only when future extension is enabled); with future extension
enabled, the selection holds exactly the four-digit year columns that are
numerically at least the base year, plus the earlier ones exactly when the
past flag is set. -/
theorem adjustment_year_selection_spec :
    (∀ df base past, get_adjustment_year_columns df base false past = [base]) ∧
    (∀ df base, get_adjustment_year_columns df base false true
        = get_adjustment_year_columns df base false false) ∧
    (∀ df base past col,
      col ∈ get_adjustment_year_columns df base true past ↔
        (col ∈ df.columns ∧ isFourDigitYear col = true ∧
          (pyInt base ≤ pyInt col ∨ past = true))) := by
  refine ⟨?_, ?_, ?_⟩
  · intro df base past
    simp [get_adjustment_year_columns]
  · intro df base
    simp [get_adjustment_year_columns]
  · intro df base past col
    simp only [get_adjustment_year_columns, Bool.not_true, Bool.false_eq_true,
      if_false, List.mem_filter, List.mem_mergeSort]
    constructor
    · rintro ⟨⟨hcol, hfour⟩, hkeep⟩
      refine ⟨hcol, hfour, ?_⟩
      rcases Bool.or_eq_true _ _ |>.mp hkeep with h | h
      · exact Or.inr h
      · simp only [Bool.not_eq_true', decide_eq_false_iff_not, Nat.not_lt] at h
        exact Or.inl h
    · rintro ⟨hcol, hfour, hge⟩
      refine ⟨⟨hcol, hfour⟩, ?_⟩
      rcases hge with h | h
      · simp [Nat.not_lt.mpr h]
      · simp [h]

/-- C6: a demand-fuel (FuelLike) node can never be auto-created: through
`_create_child_branch` the attempt fails with the explicit
manual-creation-required error (and even without a parent handle it fails,
with the orphan error, never returning a handle); through
`_ensure_path_exists_create_if_not`'s walk, a missing segment that resolves
to the demand-fuel kind aborts the whole call with the explicit
manual-creation-required error — it is never silently skipped. -/
theorem demand_fuel_never_auto_created :
    (∀ st (p : LeapBranch) name,
      _create_child_branch st (some p) name BRANCH_DEMAND_FUEL
        = Except.error (fuelCreateMsg name)) ∧
    (∀ st name,
      _create_child_branch st none name BRANCH_DEMAND_FUEL
        = Except.error (orphanCreateMsg name)) ∧
    (∀ st done rest' part (pb : LeapBranch) root others mapping defaults,
      safe_branch_call st (pyJoin "\\" (done ++ [part])) = none →
      identify_branch_type_from_mapping (pyJoin "\\" (done ++ [part])) others root
          mapping defaults = BRANCH_DEMAND_FUEL →
      ensureLoop st done (part :: rest') (some pb) root others mapping defaults
        = Except.error (fuelEnsureMsg (pyJoin "\\" (done ++ [part])))) := by
  refine ⟨?_, ?_, ?_⟩
  · intro st p name
    simp [_create_child_branch, BRANCH_DEMAND_FUEL, BRANCH_DEMAND_CATEGORY,
      BRANCH_DEMAND_TECHNOLOGY]
  · intro st name
    simp [_create_child_branch]
  · intro st done rest' part pb root others mapping defaults hsafe hkind
    simp only [ensureLoop, hsafe, hkind, BRANCH_DEMAND_FUEL, BRANCH_DEMAND_CATEGORY,
      BRANCH_DEMAND_TECHNOLOGY]
    norm_num

/-- C6 witness: a concrete walk hitting a demand-fuel segment fails with the
manual-creation error. -/
theorem demand_fuel_never_auto_created_witness :
    _create_child_branch ⟨["Demand"], 0⟩ (some ⟨"Demand"⟩) "Gasoline" BRANCH_DEMAND_FUEL
      = Except.error (fuelCreateMsg "Gasoline") ∧
    ensureLoop ⟨["Demand"], 0⟩ ["Demand"] ["Gasoline"] (some ⟨"Demand"⟩) none []
        [(["Demand", "Gasoline"], 36)] (1, 2, 3)
      = Except.error (fuelEnsureMsg "Demand\\Gasoline") := by
  constructor
  · exact demand_fuel_never_auto_created.1 ⟨["Demand"], 0⟩ ⟨"Demand"⟩ "Gasoline"
  · have h := demand_fuel_never_auto_created.2.2 ⟨["Demand"], 0⟩ ["Demand"] [] "Gasoline"
      ⟨"Demand"⟩ none [] [(["Demand", "Gasoline"], 36)] (1, 2, 3) (by decide) (by decide)
    simpa using h

/-- C10: a key whose modeled total is exactly 0 is reported with scale
factor 1 and leaves the working copy untouched — the per-key step returns
the dataframe unchanged with an empty adjusted-branches list, whatever the
reference total, tolerance, and optional functions are. -/
theorem zero_modeled_total_no_mutation (working : DataFrame) (base_year : String)
    (esto_key : List String) (rules : List BranchRule) (strategies : StratMap)
    (totals : List (List String × ℚ)) (tol : ℚ) (afn : Option AdjustFn)
    (cfn : Option CombineFn) (efn : Option EnergyFn) (pfn : Option ProviderFn)
    (ycols : List String)
    (h : keyLeapTotal working base_year rules strategies cfn efn pfn = 0) :
    processKey working base_year esto_key rules strategies totals tol afn cfn efn pfn ycols
      = (working,
         { estoKey := pyJoin " | " esto_key, leapEnergyUse := 0,
           estoEnergyUse := estoTotalFor totals esto_key, scaleFactor := 1,
           adjustedBranches := "" }) := by
  simp [processKey, h, _compute_scale_factor, pyJoin]

/-- C10 witness: a key with a matched row but zero modeled total, a nonzero
reference total 75 and a mismatch far above the tolerance is left unadjusted
with scale factor 1. -/
theorem zero_modeled_total_no_mutation_witness :
    keyLeapTotal dfZero "2022" [ruleSingle] (mergedStrategies none) none none none = 0 ∧
    estoTotalFor [(eKey3, 75)] eKey3 = 75 ∧
    |(0 : ℚ) - 75| > 1 / 1000000 ∧
    processKey dfZero "2022" eKey3 [ruleSingle] (mergedStrategies none) [(eKey3, 75)]
        (1 / 1000000) none none none none ["2022"]
      = (dfZero,
         { estoKey := pyJoin " | " eKey3, leapEnergyUse := 0,
           estoEnergyUse := estoTotalFor [(eKey3, 75)] eKey3, scaleFactor := 1,
           adjustedBranches := "" }) := by
  have hz : keyLeapTotal dfZero "2022" [ruleSingle] (mergedStrategies none) none none
      none = 0 := by
    simp [keyLeapTotal, calculate_branch_energy, getInputVars, ruleSingle, dfZero,
      _default_input_series_provider, rulePath, build_branch_path, pyJoin, seriesSum,
      getCell, List.enum, List.mapM.loop, Except.bind, bind, pure, Except.pure]
  refine ⟨hz, by simp [estoTotalFor, dictGet, eKey3], by norm_num, ?_⟩
  exact zero_modeled_total_no_mutation dfZero "2022" eKey3 [ruleSingle]
    (mergedStrategies none) [(eKey3, 75)] (1 / 1000000) none none none none ["2022"] hz

/-- Helper: the per-key fold of the reconciliation engine writes only to the
working reference, so every other heap cell keeps its value. -/
theorem foldl_heap_write_getElem {β : Type} (rWork : Nat)
    (g : DataFrame → β → DataFrame × SummaryRow) :
    ∀ (l : List β) (hp : Heap) (srows : List SummaryRow) (r : Nat), r ≠ rWork →
      ((l.foldl (fun (acc : Heap × List SummaryRow) kr =>
          match acc.1[rWork]? with
          | none => acc
          | some wdf =>
            let pr := g wdf kr
            (acc.1.set rWork pr.1, acc.2 ++ [pr.2])) (hp, srows)).1)[r]?
        = hp[r]? := by
  intro l
  induction l with
  | nil =>
    intro hp srows r hne
    rfl
  | cons b t ih =>
    intro hp srows r hne
    simp only [List.foldl_cons]
    cases hx : hp[rWork]? with
    | none => simpa [hx] using ih hp srows r hne
    | some wdf =>
      simp only [hx]
      rw [ih _ _ _ hne, List.getElem?_set, if_neg (fun hh => hne hh.symm)]

/-- C5: the reconciliation engine never modifies the caller's original
dataset: on success the returned working reference is the freshly allocated
defensive copy (distinct from the caller's reference), and the caller's heap
cell is unchanged. -/
theorem reconcile_preserves_original (h : Heap) (r : Nat) (base_year : String)
    (rules : List (List String × List BranchRule)) (totals : List (List String × ℚ))
    (strategies : Option StratMap) (tol : ℚ) (afn : Option AdjustFn)
    (cfn : Option CombineFn) (efn : Option EnergyFn) (pfn : Option ProviderFn)
    (fut past : Bool) (hr : r < h.length) (h' : Heap) (rw : Nat) (s : List SummaryRow)
    (hok : reconcile_energy_use h r base_year rules totals strategies tol afn cfn efn pfn
      fut past = Except.ok (h', rw, s)) :
    rw = h.length ∧ r ≠ rw ∧ h'[r]? = h[r]? := by
  rw [reconcile_energy_use, List.getElem?_eq_getElem hr] at hok
  by_cases hc : (efn.isSome && afn.isNone) = true
  · simp [hc] at hok
  · simp only [hc, Bool.false_eq_true, if_false] at hok
    simp only [Except.ok.injEq, Prod.mk.injEq] at hok
    obtain ⟨e1, e2, e3⟩ := hok
    refine ⟨e2.symm, ?_, ?_⟩
    · omega
    · rw [← e1]
      have hfold := foldl_heap_write_getElem h.length
        (fun wdf kr => processKey wdf base_year kr.1 kr.2 (mergedStrategies strategies)
          totals tol afn cfn efn pfn (get_adjustment_year_columns h[r] base_year fut past))
        rules (h ++ [h[r]]) [] r (Nat.ne_of_lt hr)
      rw [hfold, List.getElem?_append, if_pos hr]

/-- C5 witness: a concrete successful run leaves the caller's cell intact and
returns the fresh copy's reference. -/
theorem reconcile_preserves_original_witness :
    reconcile_energy_use [dfSingle] 0 "2022" [] [] none (1 / 1000000) none none none none
        false false
      = Except.ok ([dfSingle, dfSingle], 1, []) ∧
    (1 = [dfSingle].length ∧ 0 ≠ 1 ∧ [dfSingle, dfSingle][0]? = [dfSingle][0]?) := by
  have hok : reconcile_energy_use [dfSingle] 0 "2022" [] [] none (1 / 1000000) none none
      none none false false = Except.ok ([dfSingle, dfSingle], 1, []) := rfl
  exact ⟨hok, reconcile_preserves_original [dfSingle] 0 "2022" [] [] none (1 / 1000000)
    none none none none false false (by norm_num) [dfSingle, dfSingle] 1 [] hok⟩

/-- C8: a fully custom total-calculation function (`energy_fn`) without a
matching custom `adjustment_fn` is rejected up front as a configuration
error: the call returns the configuration error and no adjusted dataset, so
no mutation is performed on any heap cell. -/
theorem custom_energy_fn_requires_adjustment_fn (h : Heap) (r : Nat) (base_year : String)
    (rules : List (List String × List BranchRule)) (totals : List (List String × ℚ))
    (strategies : Option StratMap) (tol : ℚ) (cfn : Option CombineFn) (f : EnergyFn)
    (pfn : Option ProviderFn) (fut past : Bool) (hr : r < h.length) :
    reconcile_energy_use h r base_year rules totals strategies tol none cfn (some f) pfn
        fut past
      = Except.error ("Provide a custom adjustment_fn when using a custom energy_fn " ++
          "so scale factors are applied correctly.") := by
  rw [reconcile_energy_use, List.getElem?_eq_getElem hr]
  simp

/-- C8 witness: a concrete call with a custom `energy_fn` and no
`adjustment_fn` is rejected. -/
theorem custom_energy_fn_requires_adjustment_fn_witness :
    reconcile_energy_use [dfSingle] 0 "2022" [] [] none (1 / 1000000) none none
        (some (fun _ _ _ _ _ => Except.ok 0)) none false false
      = Except.error ("Provide a custom adjustment_fn when using a custom energy_fn " ++
          "so scale factors are applied correctly.") :=
  custom_energy_fn_requires_adjustment_fn [dfSingle] 0 "2022" [] [] none (1 / 1000000)
    none (fun _ _ _ _ _ => Except.ok 0) none false false (by norm_num)

/-- Helper: semantic characterization of the per-year change frame. -/
theorem mem_changeRowsForYear (odf adf : DataFrame) (tol : ℚ) (y : String) (r : ChangeRow) :
    r ∈ changeRowsForYear odf adf tol y ↔
      (odf.columns.contains y = true ∧ adf.columns.contains y = true ∧
        ∃ pr ∈ odf.rows.zip adf.rows, ∃ o a, getCell pr.1 y = some o ∧
          getCell pr.2 y = some a ∧ |a - o| > tol ∧
          r = ⟨pr.1.branchPath, pr.1.var, y, o, a, a - o,
               if o = 0 then none else some ((a - o) / o)⟩) := by
  unfold changeRowsForYear
  by_cases hcol : (odf.columns.contains y && adf.columns.contains y) = true
  · obtain ⟨h1, h2⟩ := Bool.and_eq_true _ _ |>.mp hcol
    rw [if_pos hcol]
    simp only [List.mem_filterMap, h1, h2, true_and]
    constructor
    · rintro ⟨pr, hpr, hf⟩
      cases ho : getCell pr.1 y with
      | none => rw [ho] at hf; simp at hf
      | some o =>
        cases ha : getCell pr.2 y with
        | none => simp only [ho, ha] at hf; exact absurd hf (by simp)
        | some a =>
          simp only [ho, ha] at hf
          by_cases hgt : |a - o| > tol
          · rw [if_pos hgt] at hf
            exact ⟨pr, hpr, o, a, ho, ha, hgt, (Option.some.inj hf).symm⟩
          · rw [if_neg hgt] at hf
            simp at hf
    · rintro ⟨pr, hpr, o, a, ho, ha, hgt, hr⟩
      refine ⟨pr, hpr, ?_⟩
      simp only [ho, ha]
      rw [if_pos hgt, hr]
  · rw [if_neg hcol]
    simp only [List.not_mem_nil, false_iff]
    rw [Bool.and_eq_true] at hcol
    rintro ⟨hc1, hc2, -⟩
    exact hcol ⟨hc1, hc2⟩

/-- Helper: zipping a list with itself pairs each element with itself. -/
theorem zip_self_fst_eq_snd {α : Type} (l : List α) :
    ∀ pr ∈ l.zip l, pr.1 = pr.2 := by
  induction l with
  | nil => intro pr hpr; simp at hpr
  | cons a t ih =>
    intro pr hpr
    rcases List.mem_cons.mp hpr with h | h
    · rw [h]
    · exact ih pr h

/-- Helper: a table diffed against itself produces no change rows. -/
theorem changeRowsForYear_self (df : DataFrame) (tol : ℚ) (y : String) (htol : 0 ≤ tol) :
    changeRowsForYear df df tol y = [] := by
  unfold changeRowsForYear
  by_cases hcol : (df.columns.contains y && df.columns.contains y) = true
  · rw [if_pos hcol, List.filterMap_eq_nil_iff]
    intro pr hpr
    have heq := zip_self_fst_eq_snd df.rows pr hpr
    cases ho : getCell pr.1 y with
    | none => simp
    | some o =>
      have ha : getCell pr.2 y = some o := by rw [← heq, ho]
      have hno : ¬ |o - o| > tol := by
        simp only [sub_self, abs_zero, gt_iff_lt, not_lt]
        exact htol
      simp only [ho, ha]
      rw [if_neg hno]
  · rw [if_neg hcol]

/-- Helper: semantic characterization of the full change table's members. -/
theorem mem_build_change_table (odf adf : DataFrame) (years : List String) (tol : ℚ)
    (r : ChangeRow) :
    r ∈ _build_change_table_for_years odf adf years tol ↔
      ∃ y ∈ years, odf.columns.contains y = true ∧ adf.columns.contains y = true ∧
        ∃ pr ∈ odf.rows.zip adf.rows, ∃ o a, getCell pr.1 y = some o ∧
          getCell pr.2 y = some a ∧ |a - o| > tol ∧
          r = ⟨pr.1.branchPath, pr.1.var, y, o, a, a - o,
               if o = 0 then none else some ((a - o) / o)⟩ := by
  unfold _build_change_table_for_years
  by_cases hy : years.isEmpty
  · rw [if_pos hy]
    have hnil : years = [] := List.isEmpty_iff.mp hy
    subst hnil
    simp
  · rw [if_neg hy]
    simp only [List.mem_mergeSort, List.mem_flatMap, mem_changeRowsForYear]

/-- Helper: the concatenated per-year frames of a self-diff are empty. -/
theorem flatMap_changeRows_self (df : DataFrame) (tol : ℚ) (htol : 0 ≤ tol) :
    ∀ ys : List String, ys.flatMap (changeRowsForYear df df tol) = [] := by
  intro ys
  induction ys with
  | nil => rfl
  | cons a t ih => simp [List.flatMap_cons, changeRowsForYear_self df tol a htol, ih]


/-- C9: the change-audit diff contains exactly the aligned row/year pairs
whose values are both present and whose difference exceeds the threshold in
magnitude, sorted by descending absolute change, with a null percent change
whenever the original value is exactly zero; on identical tables (with a
nonnegative threshold) the table is empty; and on the concrete pair where
exactly one row differs by +10 the result is the single row with absolute
change 10 and percent change 10/50 = 1/5. -/
theorem change_table_spec :
    (∀ odf adf years tol,
      List.Pairwise (fun r1 r2 : ChangeRow => |r2.absChange| ≤ |r1.absChange|)
        (_build_change_table_for_years odf adf years tol)) ∧
    (∀ odf adf years tol (r : ChangeRow),
      r ∈ _build_change_table_for_years odf adf years tol ↔
        ∃ y ∈ years, odf.columns.contains y = true ∧ adf.columns.contains y = true ∧
          ∃ pr ∈ odf.rows.zip adf.rows, ∃ o a, getCell pr.1 y = some o ∧
            getCell pr.2 y = some a ∧ |a - o| > tol ∧
            r = ⟨pr.1.branchPath, pr.1.var, y, o, a, a - o,
                 if o = 0 then none else some ((a - o) / o)⟩) ∧
    (∀ odf adf years tol (r : ChangeRow),
      r ∈ _build_change_table_for_years odf adf years tol →
      r.original = 0 → r.pctChange = none) ∧
    (∀ (df : DataFrame) years tol, 0 ≤ tol →
      _build_change_table_for_years df df years tol = []) ∧
    (_build_change_table_for_years cOrig cAdj ["2022"] (1 / 1000000000)
      = [⟨"Demand\\X", "Activity Level", "2022", 50, 60, 10, some (1 / 5)⟩]) := by
  refine ⟨?_, ?_, ?_, ?_, ?_⟩
  · intro odf adf years tol
    unfold _build_change_table_for_years
    by_cases hy : years.isEmpty
    · rw [if_pos hy]
      exact List.Pairwise.nil
    · rw [if_neg hy]
      have htrans : ∀ a b c : ChangeRow,
          decide (|b.absChange| ≤ |a.absChange|) = true →
          decide (|c.absChange| ≤ |b.absChange|) = true →
          decide (|c.absChange| ≤ |a.absChange|) = true := by
        intro a b c hab hbc
        simp only [decide_eq_true_eq] at *
        exact le_trans hbc hab
      have htotal : ∀ a b : ChangeRow,
          (decide (|b.absChange| ≤ |a.absChange|) ||
           decide (|a.absChange| ≤ |b.absChange|)) = true := by
        intro a b
        rcases le_total (|b.absChange|) (|a.absChange|) with h | h <;> simp [h]
      have hs := List.sorted_mergeSort htrans htotal
        (years.flatMap (changeRowsForYear odf adf tol))
      exact hs.imp (fun h => by simpa using h)
  · intro odf adf years tol r
    exact mem_build_change_table odf adf years tol r
  · intro odf adf years tol r hmem h0
    obtain ⟨y, hy, hc1, hc2, pr, hpr, o, a, ho, ha, hgt, hr⟩ :=
      (mem_build_change_table odf adf years tol r).mp hmem
    subst hr
    simp only at h0
    simp only [h0, if_pos]
  · intro df years tol htol
    unfold _build_change_table_for_years
    by_cases hy : years.isEmpty
    · rw [if_pos hy]
    · rw [if_neg hy, flatMap_changeRows_self df tol htol years]
      exact List.perm_nil.mp (List.mergeSort_perm [] _)
  · have h1 : (["2022"].flatMap (changeRowsForYear cOrig cAdj (1 / 1000000000)))
        = [⟨"Demand\\X", "Activity Level", "2022", 50, 60, 10, some (1 / 5)⟩] := by
      norm_num [List.flatMap_cons, changeRowsForYear, cOrig, cAdj, getCell,
        List.filterMap_cons, List.find?]
    unfold _build_change_table_for_years
    rw [if_neg (by decide), h1]
    exact List.perm_singleton.mp (List.mergeSort_perm _ _)

/-- C9 witness: the identical-tables clause applied at a concrete table and
threshold. -/
theorem change_table_spec_witness :
    _build_change_table_for_years cOrig cOrig ["2022"] (1 / 2) = [] :=
  change_table_spec.2.2.2.1 cOrig ["2022"] (1 / 2) (by norm_num)

/-- Helper: appending one segment to a nonempty join adds one separator. -/
theorem pyJoin_append_singleton (sep x : String) : ∀ (l : List String), l ≠ [] →
    pyJoin sep (l ++ [x]) = pyJoin sep l ++ sep ++ x
  | [], h => absurd rfl h
  | [a], _ => by simp [pyJoin]
  | a :: b :: u, _ => by
    have ih := pyJoin_append_singleton sep x (b :: u) (by simp)
    simp only [List.cons_append] at ih
    simp only [List.cons_append, pyJoin, List.append_eq]
    rw [ih]
    simp [String.append_assoc]

/-- Helper: a creation call only grows the set of existing branches. -/
theorem stateLe_addChild (st : LeapState) (pp name : String) :
    stateLe st (leapAddChild st pp name).1 := by
  intro x hx
  simp [leapAddChild]
  exact Or.inl hx

/-- Helper: growth of the LEAP hierarchy is transitive. -/
theorem stateLe_trans {s1 s2 s3 : LeapState} (h1 : stateLe s1 s2) (h2 : stateLe s2 s3) :
    stateLe s1 s3 :=
  fun x hx => h2 x (h1 x hx)

/-- Helper: a successful walk of the materializer never removes branches. -/
theorem ensureLoop_mono (rest : List String) :
    ∀ (st : LeapState) (done : List String) (parent : Option LeapBranch)
      (root : Option String) (others : List String) (mapping : List (List String × Nat))
      (defaults : Nat × Nat × Nat) (st' : LeapState) (x : Option LeapBranch),
      ensureLoop st done rest parent root others mapping defaults = Except.ok (st', x) →
      stateLe st st' := by
  induction rest with
  | nil =>
    intro st done parent root others mapping defaults st' x h
    simp only [ensureLoop, Except.ok.injEq, Prod.mk.injEq] at h
    rw [← h.1]
    exact fun y hy => hy
  | cons part rest' ih =>
    intro st done parent root others mapping defaults st' x h
    simp only [ensureLoop] at h
    cases hsb : safe_branch_call st (pyJoin "\\" (done ++ [part])) with
    | some br =>
      simp only [hsb] at h
      exact ih st (done ++ [part]) (some br) root others mapping defaults st' x h
    | none =>
      cases parent with
      | none =>
        simp only [hsb, Except.ok.injEq, Prod.mk.injEq] at h
        rw [← h.1]
        exact fun y hy => hy
      | some pb =>
        simp only [hsb] at h
        generalize hbt : identify_branch_type_from_mapping (pyJoin "\\" (done ++ [part]))
          others root mapping defaults = bt at h
        by_cases e1 : bt = BRANCH_DEMAND_CATEGORY
        · rw [if_pos e1] at h
          exact stateLe_trans (stateLe_addChild st pb.path part) (ih _ _ _ _ _ _ _ _ _ h)
        · rw [if_neg e1] at h
          by_cases e2 : bt = BRANCH_DEMAND_TECHNOLOGY
          · rw [if_pos e2] at h
            exact stateLe_trans (stateLe_addChild st pb.path part) (ih _ _ _ _ _ _ _ _ _ h)
          · rw [if_neg e2] at h
            by_cases e3 : bt = BRANCH_DEMAND_FUEL
            · rw [if_pos e3] at h
              cases h
            · rw [if_neg e3] at h
              by_cases e4 : bt = BRANCH_KEY_ASSUMPTION_BRANCH
              · rw [if_pos e4] at h
                exact stateLe_trans (stateLe_addChild st pb.path part)
                  (ih _ _ _ _ _ _ _ _ _ h)
              · rw [if_neg e4] at h
                by_cases e5 : bt = BRANCH_KEY_ASSUMPTION_CATEGORY
                · rw [if_pos e5] at h
                  exact stateLe_trans (stateLe_addChild st pb.path part)
                    (ih _ _ _ _ _ _ _ _ _ h)
                · rw [if_neg e5] at h
                  simp only [Except.ok.injEq, Prod.mk.injEq] at h
                  rw [← h.1]
                  exact fun y hy => hy

/-- Helper: when the walk returns a handle, that handle names the joined
path of all visited segments, and that branch exists afterwards. -/
theorem ensureLoop_ok_path (rest : List String) :
    ∀ (st : LeapState) (done : List String) (parent : Option LeapBranch)
      (root : Option String) (others : List String) (mapping : List (List String × Nat))
      (defaults : Nat × Nat × Nat) (st' : LeapState) (br : LeapBranch),
      (∀ pb, parent = some pb →
        (pb.path = pyJoin "\\" done ∧ pb.path ∈ st.existing ∧ done ≠ [])) →
      ensureLoop st done rest parent root others mapping defaults
        = Except.ok (st', some br) →
      br.path = pyJoin "\\" (done ++ rest) ∧ br.path ∈ st'.existing := by
  induction rest with
  | nil =>
    intro st done parent root others mapping defaults st' br hinv h
    simp only [ensureLoop, Except.ok.injEq, Prod.mk.injEq] at h
    obtain ⟨h1, h2⟩ := h
    obtain ⟨p1, p2, p3⟩ := hinv br h2
    subst h1
    exact ⟨by rw [List.append_nil]; exact p1, p2⟩
  | cons part rest' ih =>
    intro st done parent root others mapping defaults st' br hinv h
    simp only [ensureLoop] at h
    have hjoin : ∀ rst : List String,
        pyJoin "\\" ((done ++ [part]) ++ rst) = pyJoin "\\" (done ++ (part :: rst)) := by
      intro rst
      rw [List.append_assoc]
      rfl
    cases hsb : safe_branch_call st (pyJoin "\\" (done ++ [part])) with
    | some brc =>
      simp only [hsb] at h
      have hmem : pyJoin "\\" (done ++ [part]) ∈ st.existing ∧
          brc = ⟨pyJoin "\\" (done ++ [part])⟩ := by
        unfold safe_branch_call at hsb
        by_cases hm : pyJoin "\\" (done ++ [part]) ∈ st.existing
        · rw [if_pos hm] at hsb
          exact ⟨hm, (Option.some.inj hsb).symm⟩
        · rw [if_neg hm] at hsb
          cases hsb
      have hres := ih st (done ++ [part]) (some brc) root others mapping defaults st' br
        (by
          intro pb hpb
          rw [hmem.2] at hpb
          rw [← Option.some.inj hpb]
          exact ⟨rfl, hmem.1, by simp⟩) h
      rw [hjoin rest'] at hres
      exact hres
    | none =>
      cases parent with
      | none =>
        simp only [hsb, Except.ok.injEq, Prod.mk.injEq] at h
        cases h.2
      | some pb =>
        obtain ⟨p1, p2, p3⟩ := hinv pb rfl
        simp only [hsb] at h
        have hchild : ∀ (r : LeapState × LeapBranch),
            r = leapAddChild st pb.path part →
            (∀ qb, (some r.2 : Option LeapBranch) = some qb →
              (qb.path = pyJoin "\\" (done ++ [part]) ∧ qb.path ∈ r.1.existing ∧
                done ++ [part] ≠ [])) := by
          rintro r rfl qb hqb
          rw [← Option.some.inj hqb]
          refine ⟨?_, ?_, by simp⟩
          · rw [pyJoin_append_singleton _ _ done p3, p1]
            rfl
          · simp [leapAddChild]
        generalize hbt : identify_branch_type_from_mapping (pyJoin "\\" (done ++ [part]))
          others root mapping defaults = bt at h
        by_cases e1 : bt = BRANCH_DEMAND_CATEGORY
        · rw [if_pos e1] at h
          have hres := ih _ _ _ _ _ _ _ _ _ (hchild _ rfl) h
          rw [hjoin rest'] at hres
          exact hres
        · rw [if_neg e1] at h
          by_cases e2 : bt = BRANCH_DEMAND_TECHNOLOGY
          · rw [if_pos e2] at h
            have hres := ih _ _ _ _ _ _ _ _ _ (hchild _ rfl) h
            rw [hjoin rest'] at hres
            exact hres
          · rw [if_neg e2] at h
            by_cases e3 : bt = BRANCH_DEMAND_FUEL
            · rw [if_pos e3] at h
              cases h
            · rw [if_neg e3] at h
              by_cases e4 : bt = BRANCH_KEY_ASSUMPTION_BRANCH
              · rw [if_pos e4] at h
                have hres := ih _ _ _ _ _ _ _ _ _ (hchild _ rfl) h
                rw [hjoin rest'] at hres
                exact hres
              · rw [if_neg e4] at h
                by_cases e5 : bt = BRANCH_KEY_ASSUMPTION_CATEGORY
                · rw [if_pos e5] at h
                  have hres := ih _ _ _ _ _ _ _ _ _ (hchild _ rfl) h
                  rw [hjoin rest'] at hres
                  exact hres
                · rw [if_neg e5] at h
                  simp only [Except.ok.injEq, Prod.mk.injEq] at h
                  cases h.2

/-- Helper: `_ensure_path_exists_create_if_not` never removes branches. -/
theorem ensure_mono (st : LeapState) (full_path : String) (root : Option String)
    (others : List String) (mapping : List (List String × Nat))
    (defaults : Nat × Nat × Nat) (st' : LeapState) (x : Option LeapBranch)
    (h : _ensure_path_exists_create_if_not st full_path root others mapping defaults
      = Except.ok (st', x)) :
    stateLe st st' :=
  ensureLoop_mono (splitParts full_path) st [] none root others mapping defaults st' x h

/-- Helper: materializing a canonical path successfully makes the full path
exist. -/
theorem ensure_ok_mem (st : LeapState) (full_path : String) (root : Option String)
    (others : List String) (mapping : List (List String × Nat))
    (defaults : Nat × Nat × Nat) (st' : LeapState) (br : LeapBranch)
    (hcanon : pathIsCanonical full_path)
    (h : _ensure_path_exists_create_if_not st full_path root others mapping defaults
      = Except.ok (st', some br)) :
    full_path ∈ st'.existing := by
  have hres := ensureLoop_ok_path (splitParts full_path) st [] none root others mapping
    defaults st' br (by intro pb hpb; cases hpb) h
  rw [List.nil_append] at hres
  rw [← hcanon, ← hres.1]
  exact hres.2

/-- Helper: the batch loop never removes branches. -/
theorem batchLoop_mono (todo : List String) :
    ∀ (st : LeapState) (acc : BatchResult) (root : Option String) (others : List String)
      (mapping : List (List String × Nat)) (defaults : Nat × Nat × Nat) (RAISE : Bool)
      (st1 : LeapState) (res : BatchResult),
      batchLoop st todo acc root others mapping defaults RAISE = Except.ok (st1, res) →
      stateLe st st1 := by
  induction todo with
  | nil =>
    intro st acc root others mapping defaults RAISE st1 res h
    simp only [batchLoop, Except.ok.injEq, Prod.mk.injEq] at h
    rw [← h.1]
    exact fun y hy => hy
  | cons bp rest ih =>
    intro st acc root others mapping defaults RAISE st1 res h
    simp only [batchLoop] at h
    cases hsb : safe_branch_call st bp with
    | some br =>
      simp only [hsb] at h
      exact ih _ _ _ _ _ _ _ _ _ h
    | none =>
      simp only [hsb] at h
      cases hen : _ensure_path_exists_create_if_not st bp root others mapping defaults with
      | error e =>
        rw [hen] at h
        cases h
      | ok p =>
        obtain ⟨st2, nodeOpt⟩ := p
        rw [hen] at h
        cases nodeOpt with
        | none =>
          cases RAISE with
          | true => simp at h
          | false =>
            simp only [Bool.false_eq_true, if_false] at h
            exact stateLe_trans (ensure_mono _ _ _ _ _ _ _ _ hen) (ih _ _ _ _ _ _ _ _ _ h)
        | some nb =>
          exact stateLe_trans (ensure_mono _ _ _ _ _ _ _ _ hen) (ih _ _ _ _ _ _ _ _ _ h)

/-- Helper: after a successful strict-mode batch over canonical paths, every
processed path exists. -/
theorem batchLoop_ok_exists (todo : List String) :
    ∀ (st : LeapState) (acc : BatchResult) (root : Option String) (others : List String)
      (mapping : List (List String × Nat)) (defaults : Nat × Nat × Nat)
      (st1 : LeapState) (res : BatchResult),
      (∀ bp ∈ todo, pathIsCanonical bp) →
      batchLoop st todo acc root others mapping defaults true = Except.ok (st1, res) →
      ∀ bp ∈ todo, bp ∈ st1.existing := by
  induction todo with
  | nil =>
    intro st acc root others mapping defaults st1 res hcanon h bq hbq
    simp at hbq
  | cons bp rest ih =>
    intro st acc root others mapping defaults st1 res hcanon h bq hbq
    simp only [batchLoop] at h
    cases hsb : safe_branch_call st bp with
    | some br =>
      simp only [hsb] at h
      have hmem : bp ∈ st.existing := by
        unfold safe_branch_call at hsb
        by_cases hm : bp ∈ st.existing
        · exact hm
        · rw [if_neg hm] at hsb
          cases hsb
      rcases List.mem_cons.mp hbq with rfl | hbq'
      · exact batchLoop_mono rest _ _ _ _ _ _ _ _ _ h bq hmem
      · exact ih _ _ _ _ _ _ _ _ (fun b hb => hcanon b (List.mem_cons_of_mem bp hb)) h
          bq hbq'
    | none =>
      simp only [hsb] at h
      cases hen : _ensure_path_exists_create_if_not st bp root others mapping defaults with
      | error e =>
        rw [hen] at h
        cases h
      | ok p =>
        obtain ⟨st2, nodeOpt⟩ := p
        rw [hen] at h
        cases nodeOpt with
        | none => simp at h
        | some nb =>
          rcases List.mem_cons.mp hbq with rfl | hbq'
          · have hmem2 : bq ∈ st2.existing :=
              ensure_ok_mem st bq root others mapping defaults st2 nb
                (hcanon bq (List.mem_cons_self bq rest)) hen
            exact batchLoop_mono rest _ _ _ _ _ _ _ _ _ h bq hmem2
          · exact ih _ _ _ _ _ _ _ _ (fun b hb => hcanon b (List.mem_cons_of_mem bp hb)) h
              bq hbq'

/-- Helper: when every pending path already exists, the batch loop issues no
creation call, leaves the state untouched and reports everything skipped. -/
theorem batchLoop_all_skip (todo : List String) :
    ∀ (st : LeapState) (acc : BatchResult) (root : Option String) (others : List String)
      (mapping : List (List String × Nat)) (defaults : Nat × Nat × Nat) (RAISE : Bool),
      (∀ bp ∈ todo, bp ∈ st.existing) →
      batchLoop st todo acc root others mapping defaults RAISE
        = Except.ok (st, ⟨acc.created, acc.skipped ++ todo, acc.failed⟩) := by
  induction todo with
  | nil =>
    intro st acc root others mapping defaults RAISE hex
    simp [batchLoop]
  | cons bp rest ih =>
    intro st acc root others mapping defaults RAISE hex
    have hmem : bp ∈ st.existing := hex bp (List.mem_cons_self bp rest)
    simp only [batchLoop, safe_branch_call, if_pos hmem]
    rw [ih st { acc with skipped := acc.skipped ++ [bp] } root others mapping defaults
      RAISE (fun b hb => hex b (List.mem_cons_of_mem bp hb))]
    simp [List.append_assoc]

/-- Helper: membership in the `pandas`-style dedup. -/
theorem mem_pyUniqueAux {α : Type} [BEq α] [LawfulBEq α] (l : List α) :
    ∀ (seen : List α) (x : α), x ∈ pyUniqueAux seen l ↔ (x ∈ l ∧ x ∉ seen) := by
  induction l with
  | nil =>
    intro seen x
    simp [pyUniqueAux]
  | cons a t ih =>
    intro seen x
    simp only [pyUniqueAux]
    by_cases hc : seen.contains a
    · have ha : a ∈ seen := by
        simpa using hc
      rw [if_pos hc, ih]
      constructor
      · rintro ⟨h1, h2⟩
        exact ⟨List.mem_cons_of_mem a h1, h2⟩
      · rintro ⟨h1, h2⟩
        rcases List.mem_cons.mp h1 with rfl | h1'
        · exact absurd ha h2
        · exact ⟨h1', h2⟩
    · have ha : a ∉ seen := by
        intro hmem
        exact hc (by simpa using hmem)
      rw [if_neg hc]
      simp only [List.mem_cons, ih]
      constructor
      · rintro (rfl | ⟨h1, h2⟩)
        · exact ⟨Or.inl rfl, ha⟩
        · have h3 : x ∉ seen := fun hx => h2 (Or.inr hx)
          exact ⟨Or.inr h1, h3⟩
      · rintro ⟨rfl | h1, h2⟩
        · exact Or.inl rfl
        · by_cases hxa : x = a
          · exact Or.inl hxa
          · refine Or.inr ⟨h1, ?_⟩
            rintro (h | h)
            · exact hxa h
            · exact h2 h

/-- Helper: the batch processing order holds exactly the input paths. -/
theorem mem_batchProcessOrder (paths : List String) (bp : String) :
    bp ∈ batchProcessOrder paths ↔ bp ∈ paths := by
  unfold batchProcessOrder pyUnique
  rw [List.mem_mergeSort, mem_pyUniqueAux]
  simp

/-- Helper: a single path is its own processing order. -/
theorem batchProcessOrder_singleton (x : String) : batchProcessOrder [x] = [x] := by
  unfold batchProcessOrder pyUnique
  have h : pyUniqueAux ([] : List String) [x] = [x] := by
    simp [pyUniqueAux]
  rw [h]
  exact List.perm_singleton.mp (List.mergeSort_perm _ _)

/-- C7: the batch materializer is idempotent.  (1) When every segment prefix
of every (canonical, nonempty) path already exists per the existence check,
the batch issues zero creation calls: the LEAP state is returned unchanged
(creation counter included), `created` and `failed` are empty and every path
is reported in `skipped`.  (2) After any successful strict-mode run over
canonical paths, a second run over the same path list creates nothing:
it returns `created = []` with all paths in `skipped` and the state
unchanged. -/
theorem batch_materializer_idempotent :
    (∀ (st : LeapState) (paths : List String) (root : Option String)
      (mapping : List (List String × Nat)) (defaults : Nat × Nat × Nat) (RAISE : Bool),
      (∀ bp ∈ paths, pathIsCanonical bp ∧ splitParts bp ≠ []) →
      (∀ bp ∈ paths, ∀ k, 0 < k → k ≤ (splitParts bp).length →
        pyJoin "\\" ((splitParts bp).take k) ∈ st.existing) →
      (create_branches_from_export_file st paths root mapping defaults RAISE
        = Except.ok (st, ⟨[], batchProcessOrder paths, []⟩) ∧
       ∀ bp ∈ paths, bp ∈ batchProcessOrder paths)) ∧
    (∀ (st : LeapState) (paths : List String) (root : Option String)
      (mapping : List (List String × Nat)) (defaults : Nat × Nat × Nat)
      (st1 : LeapState) (res1 : BatchResult),
      (∀ bp ∈ paths, pathIsCanonical bp) →
      create_branches_from_export_file st paths root mapping defaults true
        = Except.ok (st1, res1) →
      create_branches_from_export_file st1 paths root mapping defaults true
        = Except.ok (st1, ⟨[], batchProcessOrder paths, []⟩)) := by
  constructor
  · intro st paths root mapping defaults RAISE hcanon hseg
    have hex : ∀ bp ∈ batchProcessOrder paths, bp ∈ st.existing := by
      intro bp hbp
      have hp : bp ∈ paths := (mem_batchProcessOrder paths bp).mp hbp
      obtain ⟨hc, hne⟩ := hcanon bp hp
      have hlen : 0 < (splitParts bp).length := List.length_pos.mpr hne
      have hk := hseg bp hp (splitParts bp).length hlen le_rfl
      rw [List.take_length] at hk
      rw [hc] at hk
      exact hk
    constructor
    · unfold create_branches_from_export_file
      rw [batchLoop_all_skip (batchProcessOrder paths) st ⟨[], [], []⟩ root
        (batchProcessOrder paths) mapping defaults RAISE hex]
      simp
    · intro bp hbp
      exact (mem_batchProcessOrder paths bp).mpr hbp
  · intro st paths root mapping defaults st1 res1 hcanon hok
    have hcanon2 : ∀ bp ∈ batchProcessOrder paths, pathIsCanonical bp :=
      fun bp hbp => hcanon bp ((mem_batchProcessOrder paths bp).mp hbp)
    unfold create_branches_from_export_file at hok
    have hex1 : ∀ bp ∈ batchProcessOrder paths, bp ∈ st1.existing :=
      batchLoop_ok_exists (batchProcessOrder paths) st ⟨[], [], []⟩ root
        (batchProcessOrder paths) mapping defaults st1 res1 hcanon2 hok
    unfold create_branches_from_export_file
    rw [batchLoop_all_skip (batchProcessOrder paths) st1 ⟨[], [], []⟩ root
      (batchProcessOrder paths) mapping defaults true hex1]
    simp

/-- C7 witness: a concrete first run creates the missing branch; the second
run, by the idempotence theorem, skips it and creates nothing. -/
theorem batch_materializer_idempotent_witness :
    create_branches_from_export_file ⟨["Demand"], 0⟩ ["Demand\\Cars"] none [] (1, 2, 1) true
      = Except.ok (⟨["Demand", "Demand\\Cars"], 1⟩, ⟨["Demand\\Cars"], [], []⟩) ∧
    create_branches_from_export_file ⟨["Demand", "Demand\\Cars"], 1⟩ ["Demand\\Cars"] none
        [] (1, 2, 1) true
      = Except.ok (⟨["Demand", "Demand\\Cars"], 1⟩, ⟨[], ["Demand\\Cars"], []⟩) := by
  have h1 : create_branches_from_export_file ⟨["Demand"], 0⟩ ["Demand\\Cars"] none []
      (1, 2, 1) true
      = Except.ok (⟨["Demand", "Demand\\Cars"], 1⟩, ⟨["Demand\\Cars"], [], []⟩) := by
    unfold create_branches_from_export_file
    rw [batchProcessOrder_singleton]
    rfl
  refine ⟨h1, ?_⟩
  have h2 := batch_materializer_idempotent.2 ⟨["Demand"], 0⟩ ["Demand\\Cars"] none []
    (1, 2, 1) ⟨["Demand", "Demand\\Cars"], 1⟩ ⟨["Demand\\Cars"], [], []⟩
    (by
      intro bp hbp
      rw [List.mem_singleton] at hbp
      subst hbp
      unfold pathIsCanonical
      decide) h1
  rw [batchProcessOrder_singleton] at h2
  exact h2

/-- C3: evaluation of the engine at the spec's own scenario (modeled total
50, reference total 75, tolerance 1e-6) with a strictly multiplicative
two-input-variable rule (the Intensity strategy, combined positionally).
The scale factor is 3/2 and every matched row of the rule is multiplied by
3/2 at the base year — activity 5 becomes 15/2 and intensity 10 becomes 15 —
but recomputing the modeled total on the adjusted dataset yields
(15/2)·15 = 225/2 = 112.5, not the reference total 75: multiplying each of
the n input variables by the factor scales a multiplicative total by the
factor to the n-th power. -/
theorem proportional_adjustment_overshoots :
    reconcile_energy_use [df3] 0 "2022" [(eKey3, [rule3])] [(eKey3, 75)] none (1 / 1000000)
        none (some posMulCombine) none none false false
      = Except.ok ([df3, df3adj], 1,
          [⟨"15_02_road | 07_petroleum_products", 50, 75, 3 / 2, "Demand\\Bus"⟩]) ∧
    keyLeapTotal df3 "2022" [rule3] (mergedStrategies none) (some posMulCombine) none none
      = 50 ∧
    keyLeapTotal df3adj "2022" [rule3] (mergedStrategies none) (some posMulCombine) none
      none = 225 / 2 ∧
    (225 / 2 : ℚ) ≠ 75 := by
  have hb : ("Demand" ++ "\\" ++ "Bus" : String) = "Demand\\Bus" := rfl
  have e1 : ("Activity Level" : String) ≠ "Final Energy Intensity" := by decide
  have e2 : ("Final Energy Intensity" : String) ≠ "Activity Level" := by decide
  have e3 : ("15_02_road" ++ " | " ++ "07_petroleum_products" : String)
      = "15_02_road | 07_petroleum_products" := rfl
  refine ⟨?_, ?_, ?_, by norm_num⟩
  · norm_num [reconcile_energy_use, get_adjustment_year_columns, processKey,
      keyLeapTotal, calculate_branch_energy, getInputVars, rule3, df3, df3adj, eKey3,
      mergedStrategies, DEFAULT_STRATEGIES, dictGet, List.find?, estoTotalFor,
      _compute_scale_factor, _apply_proportional_adjustment, mapMatchedCells,
      _default_input_series_provider, rulePath, build_branch_path, pyJoin, seriesSum,
      getCell, List.enum, List.mapM.loop, Except.bind, bind, pure, Except.pure,
      posMulCombine, hb, e1, e2, e3]
    norm_num [List.filter, List.zip, List.zipWith, cond, List.filterMap, Function.comp,
      e1, e2, e3]
    rfl
  · norm_num [keyLeapTotal, calculate_branch_energy, getInputVars, rule3, df3,
      mergedStrategies, DEFAULT_STRATEGIES, dictGet, List.find?,
      _default_input_series_provider, rulePath, build_branch_path, pyJoin, seriesSum,
      getCell, List.enum, List.mapM.loop, Except.bind, bind, pure, Except.pure,
      posMulCombine, hb]
    norm_num [List.filter, List.zip, List.zipWith, cond, List.filterMap, Function.comp]
  · norm_num [keyLeapTotal, calculate_branch_energy, getInputVars, rule3, df3adj,
      mergedStrategies, DEFAULT_STRATEGIES, dictGet, List.find?,
      _default_input_series_provider, rulePath, build_branch_path, pyJoin, seriesSum,
      getCell, List.enum, List.mapM.loop, Except.bind, bind, pure, Except.pure,
      posMulCombine, hb]
    norm_num [List.filter, List.zip, List.zipWith, cond, List.filterMap, Function.comp]
